import Mathlib

/-!
Shallow embedding of the `Thread` class of simply-audio
(`src/threads.hpp`, `src/threads.cpp`, Windows branch).

Modelling choices, all taken from the source:
* A routine (`callback_t` applied to its `void*` data) is embedded as the
  one-shot outcome of the call: `Except Exc Int` (either the returned
  integer or the escaping exception).
* The OS thread is modelled with Windows semantics: `CREATE_SUSPENDED`
  starts the suspend count at 1, `SuspendThread` increments it,
  `ResumeThread` decrements it, the thread can execute only while the
  count is 0, and a finished thread handle is signaled for waits.
* OS primitives are modelled as succeeding (the RuntimeError branches for
  OS failure are unreachable in the model).
* Worker progress is scheduled deterministically: `start` returns once the
  worker has set `started` (the spin-wait in the source guarantees
  exactly this observation), and the callback body runs to completion
  during a wait on a runnable, unfinished thread.  A timed wait takes an
  oracle bit `timely` deciding whether the worker finishes inside the
  window.
* A call that can never return (an infinite wait on a thread whose
  suspend count never reaches 0, or the spin-wait in `start` never
  observing `started`) is the explicit outcome `OpResult.hangs`.
-/

namespace Simply

/-- Error taxonomy of `threads.hpp` (`ThreadUserError`,
`ThreadRuntimeError`, `ThreadExited`) plus `other` for an arbitrary
type-erased exception escaping the user routine. -/
inductive Exc where
  | userError (msg : String)
  | runtimeError (msg : String)
  | exited (msg : String)
  | other (payload : String)
deriving DecidableEq, Repr

instance : DecidableEq (Except Exc Int)
  | .ok x, .ok y =>
    if h : x = y then isTrue (congrArg Except.ok h)
    else isFalse (fun hh => h (Except.ok.inj hh))
  | .ok _, .error _ => isFalse (fun hh => Except.noConfusion hh)
  | .error _, .ok _ => isFalse (fun hh => Except.noConfusion hh)
  | .error x, .error y =>
    if h : x = y then isTrue (congrArg Except.error h)
    else isFalse (fun hh => h (Except.error.inj hh))

/-- `struct ThreadContext` of `threads.cpp`: the cross-thread handoff
block.  `routine` fuses the `callback` and `data` fields into the one-shot
outcome of `callback(data)`. -/
structure ThreadContext where
  routine : Except Exc Int
  started : Bool
  completed : Bool
  exc : Option Exc
  exit_code : Int
deriving DecidableEq, Repr

/-- `ThreadContext(callback, data)`: flags false, `exc = nullptr`,
`exit_code = 0`. -/
def ThreadContext.init (r : Except Exc Int) : ThreadContext :=
  { routine := r, started := false, completed := false
    exc := none, exit_code := 0 }

/-- The OS-side view of the one thread handle: its Windows suspend count,
whether the thread has finished, and its OS exit code. -/
structure OsThread where
  suspendCount : Nat
  finished : Bool
  osExit : Int
deriving DecidableEq, Repr

/-- Body of `Thread::Impl::win_thread`, run to completion: set `started`,
invoke the routine inside try/catch, store the integer result or the
captured exception (with `exit_code = -1`), set `completed`. -/
def win_thread (c : ThreadContext) : ThreadContext :=
  let c1 := { c with started := true }
  match c1.routine with
  | .ok v => { c1 with exit_code := v, completed := true }
  | .error e => { c1 with exc := some e, exit_code := -1, completed := true }

/-- Outcome of one controller operation: a normal return carrying the new
state, a thrown exception carrying the state at the throw, or a call that
never returns. -/
inductive OpResult (σ : Type) (α : Type) where
  | ok (a : α) (s : σ)
  | err (e : Exc) (s : σ)
  | hangs
deriving DecidableEq, Repr

/-- The `ms` argument of `WaitForSingleObject`: the distinguished
`INFINITE` value or a finite number of milliseconds. -/
inductive Timeout where
  | finite (ms : Nat)
  | INFINITE
deriving DecidableEq, Repr

/-- Result of `WaitForSingleObject` in the model: `WAIT_OBJECT_0`,
`WAIT_TIMEOUT`, or an infinite wait that can never be satisfied. -/
inductive WaitRes where
  | object0
  | timeout
  | block
deriving DecidableEq, Repr

/-- `struct Thread::Impl`: the shared context, the thread handle (its OS
state), and the two controller-local bits. -/
structure Impl where
  context : ThreadContext
  os : OsThread
  _suspended : Bool
  _joined : Bool
deriving DecidableEq, Repr

/-- `Impl::started()`. -/
def Impl.started (i : Impl) : Bool := i.context.started

/-- `Impl::completed()`. -/
def Impl.completed (i : Impl) : Bool := i.context.completed

/-- `Impl::running()`. -/
def Impl.running (i : Impl) : Bool :=
  i.started && !i.completed && !i._suspended

/-- `Impl::suspended()`. -/
def Impl.suspended (i : Impl) : Bool :=
  i.started && !i.completed && i._suspended

/-- `Impl::joined()`. -/
def Impl.joined (i : Impl) : Bool := i._joined

/-- `Impl::Impl` / `Impl::create`: fresh context, thread created with
`CREATE_SUSPENDED` (suspend count 1), both local bits false. -/
def Impl.create (r : Except Exc Int) : Impl :=
  { context := ThreadContext.init r
    os := { suspendCount := 1, finished := false, osExit := 0 }
    _suspended := false
    _joined := false }

/-- `WaitForSingleObject(thread, ms)` together with the worker progress it
implies: a finished handle is signaled at once; an unfinished thread with
positive suspend count cannot finish, so the wait times out (or, for
`INFINITE`, never returns); a runnable unfinished thread completes the
worker body during an `INFINITE` wait, and during a finite wait if the
oracle bit `timely` is true. -/
def waitForSingleObject (i : Impl) (t : Timeout) (timely : Bool) :
    WaitRes × Impl :=
  if i.os.finished then (.object0, i)
  else if i.os.suspendCount > 0 then
    match t with
    | .INFINITE => (.block, i)
    | .finite _ => (.timeout, i)
  else
    let run : Bool := match t with | .INFINITE => true | .finite _ => timely
    if run then
      let c := win_thread i.context
      (.object0,
        { i with context := c
                 os := { i.os with finished := true, osExit := c.exit_code } })
    else (.timeout, i)

/-- `Impl::start()`: UserError on a second start; `ResumeThread` drops the
suspend count by one; the spin-wait returns only once the worker has set
`started`, which requires the thread to be runnable — otherwise the spin
never terminates. -/
def Impl.start (i : Impl) : OpResult Impl Unit :=
  if i.context.started then
    .err (.userError "Cannot start thread more than once!") i
  else
    let os1 : OsThread := { i.os with suspendCount := i.os.suspendCount - 1 }
    if os1.suspendCount = 0 && !os1.finished then
      .ok () { i with os := os1
                      context := { i.context with started := true } }
    else .hangs

/-- `Impl::suspend()`: three-way failure split, then `SuspendThread`
(suspend count + 1) and the local bit is set. -/
def Impl.suspend (i : Impl) : OpResult Impl Unit :=
  if !i.running then
    if !i.started then
      .err (.userError "Cannot suspend an unstarted thread!") i
    else if i.completed then
      .err (.exited "Thread already completed!") i
    else
      .err (.userError "Thread already suspended!") i
  else
    .ok () { i with os := { i.os with suspendCount := i.os.suspendCount + 1 }
                    _suspended := true }

/-- `Impl::resume()`: three-way failure split, then — exactly as the
source does at `threads.cpp:170` — it calls `SuspendThread`, not
`ResumeThread`, so the OS suspend count goes UP by one while the local
`_suspended` bit is cleared. -/
def Impl.resume (i : Impl) : OpResult Impl Unit :=
  if !i.suspended then
    if !i.started then
      .err (.userError "Cannot resume an unstarted thread!") i
    else if i.completed then
      .err (.exited "Thread already completed!") i
    else
      .err (.userError "Thread not suspended!") i
  else
    .ok () { i with os := { i.os with suspendCount := i.os.suspendCount + 1 }
                    _suspended := false }

/-- `Impl::terminate(exit_code)`: failure split on completed/unstarted,
then `TerminateThread(thread, exit_code)` forcibly finishes the OS thread
with `exit_code` as its OS exit code.  The shared context flags are not
touched — a forced stop runs none of the remaining worker body. -/
def Impl.terminate (i : Impl) (exit_code : Int) : OpResult Impl Unit :=
  if i.completed || !i.started then
    if i.completed then .err (.exited "Thread already completed!") i
    else .err (.userError "Cannot terminate an unstarted thread!") i
  else
    .ok () { i with os := { i.os with finished := true, osExit := exit_code } }

/-- The `switch (WaitForSingleObject(thread, ms))` at the end of
`Impl::try_join`: `WAIT_OBJECT_0` sets `_joined` and returns true,
`WAIT_TIMEOUT` leaves `_joined` false and returns false, an unsatisfiable
infinite wait never returns. -/
def joinWaitSwitch (i1 : Impl) (t : Timeout) (timely : Bool) :
    OpResult Impl Bool :=
  match waitForSingleObject i1 t timely with
  | (.object0, i2) => .ok true { i2 with _joined := true }
  | (.timeout, i2) => .ok false { i2 with _joined := false }
  | (.block, _) => .hangs

/-- `Impl::try_join(ms)`: UserError if already joined or never started;
a suspended thread is first passed through `resume()` (whose thrown
failures would propagate); then the wait switch decides. -/
def Impl.try_join (i : Impl) (t : Timeout) (timely : Bool) :
    OpResult Impl Bool :=
  if i.joined then
    .err (.userError "Cannot join more than once!") i
  else if !i.started then
    .err (.userError "Cannot join until a thread has started!") i
  else
    match (if i.suspended then i.resume else .ok () i) with
    | .err e s => .err e s
    | .hangs => .hangs
    | .ok _ i1 => joinWaitSwitch i1 t timely

/-- `Impl::join()`: `try_join(INFINITE)`, discarding the boolean. -/
def Impl.join (i : Impl) : OpResult Impl Unit :=
  match i.try_join .INFINITE true with
  | .ok _ s => .ok () s
  | .err e s => .err e s
  | .hangs => .hangs

/-- `Impl::exit_code()`: UserError before a join; then the captured
exception, if any, is re-raised by `std::rethrow_exception` (the same
exception object, so kind and message are preserved); otherwise the stored
integer is returned. -/
def Impl.exit_code (i : Impl) : OpResult Impl Int :=
  if !i.joined then
    .err (.userError "Cannot retrieve exit code until the thread has joined!") i
  else
    match i.context.exc with
    | some e => .err e i
    | none => .ok i.context.exit_code i

/-- `enum Thread::Priority` of `threads.hpp`: six ordered levels. -/
inductive Priority where
  | LOWEST
  | LOW
  | NORMAL
  | HIGH
  | HIGHEST
  | REAL_TIME
deriving DecidableEq, Repr

/-- The five Windows native values used by the switch. -/
def THREAD_PRIORITY_LOWEST : Int := -2

/-- Native value for `LOW`. -/
def THREAD_PRIORITY_BELOW_NORMAL : Int := -1

/-- Native value for `NORMAL`. -/
def THREAD_PRIORITY_NORMAL : Int := 0

/-- Native value for `HIGH`. -/
def THREAD_PRIORITY_ABOVE_NORMAL : Int := 1

/-- Native value for `HIGHEST`. -/
def THREAD_PRIORITY_HIGHEST : Int := 2

/-- The `switch (priority)` of `Impl::set_priority`, `threads.cpp`
lines 111 to 131: it has cases for five of the six levels and none for
`REAL_TIME`, so for `REAL_TIME` the local `nPriority` is left
uninitialized — modelled as `none`. -/
def priorityCases : Priority → Option Int
  | .LOWEST => some THREAD_PRIORITY_LOWEST
  | .LOW => some THREAD_PRIORITY_BELOW_NORMAL
  | .NORMAL => some THREAD_PRIORITY_NORMAL
  | .HIGH => some THREAD_PRIORITY_ABOVE_NORMAL
  | .HIGHEST => some THREAD_PRIORITY_HIGHEST
  | .REAL_TIME => none

/-- `Impl::set_priority(priority)`: UserError on a running thread;
otherwise the switch computes `nPriority` and `SetThreadPriority` is
called with it (modelled as succeeding).  The returned value is the
`nPriority` handed to the OS, `none` meaning it was left undefined. -/
def Impl.set_priority (i : Impl) (p : Priority) : OpResult Impl (Option Int) :=
  if i.running then
    .err (.userError "Cannot set priority on running thread!") i
  else
    .ok (priorityCases p) i

/-- `class Thread`: the public controller, a possibly-null `pimpl`. -/
structure Thread where
  pimpl : Option Impl
deriving DecidableEq, Repr

/-- Lift an `Impl` operation through a non-null `pimpl`; a null `pimpl`
raises `ThreadUserError(msg)`. -/
def Thread.onImpl {α : Type} (t : Thread) (msg : String)
    (f : Impl → OpResult Impl α) : OpResult Thread α :=
  match t.pimpl with
  | none => .err (.userError msg) t
  | some i =>
    match f i with
    | .ok a s => .ok a ⟨some s⟩
    | .err e s => .err e ⟨some s⟩
    | .hangs => .hangs

/-- `Thread::Thread()`: default construction, null `pimpl`. -/
def Thread.default : Thread := ⟨none⟩

/-- `Thread::create(callback, data)`: UserError on an existing thread,
otherwise builds a fresh `Impl`. -/
def Thread.create (t : Thread) (r : Except Exc Int) : OpResult Thread Unit :=
  match t.pimpl with
  | some _ => .err (.userError "Cannot create on top of existing thread!") t
  | none => .ok () ⟨some (Impl.create r)⟩

/-- `Thread::set_priority(priority)`. -/
def Thread.set_priority (t : Thread) (p : Priority) :
    OpResult Thread (Option Int) :=
  t.onImpl "Cannot set priority without a thread!" (fun i => i.set_priority p)

/-- `Thread::start()`. -/
def Thread.start (t : Thread) : OpResult Thread Unit :=
  t.onImpl "Cannot start without a thread!" Impl.start

/-- `Thread::suspend()`. -/
def Thread.suspend (t : Thread) : OpResult Thread Unit :=
  t.onImpl "Cannot suspend without a thread!" Impl.suspend

/-- `Thread::resume()`. -/
def Thread.resume (t : Thread) : OpResult Thread Unit :=
  t.onImpl "Cannot resume without a thread!" Impl.resume

/-- `Thread::started() const`. -/
def Thread.started (t : Thread) : OpResult Thread Bool :=
  t.onImpl "No thread!" (fun i => .ok i.started i)

/-- `Thread::running() const`. -/
def Thread.running (t : Thread) : OpResult Thread Bool :=
  t.onImpl "No thread!" (fun i => .ok i.running i)

/-- `Thread::suspended() const`. -/
def Thread.suspended (t : Thread) : OpResult Thread Bool :=
  t.onImpl "No thread!" (fun i => .ok i.suspended i)

/-- `Thread::completed() const`. -/
def Thread.completed (t : Thread) : OpResult Thread Bool :=
  t.onImpl "No thread!" (fun i => .ok i.completed i)

/-- `Thread::detach()`: `pimpl = nullptr`, never fails. -/
def Thread.detach (_t : Thread) : OpResult Thread Unit :=
  .ok () ⟨none⟩

/-- `Thread::terminate(exit_code)`: UserError on a null `pimpl`; on a
successful `Impl::terminate` the controller resets `pimpl` to null; a
thrown failure propagates before the reset. -/
def Thread.terminate (t : Thread) (exit_code : Int) : OpResult Thread Unit :=
  match t.pimpl with
  | none => .err (.userError "Cannot terminate without a thread!") t
  | some i =>
    match i.terminate exit_code with
    | .ok _ _ => .ok () ⟨none⟩
    | .err e s => .err e ⟨some s⟩
    | .hangs => .hangs

/-- `Thread::join()`. -/
def Thread.join (t : Thread) : OpResult Thread Unit :=
  t.onImpl "Cannot join without a thread!" Impl.join

/-- `Thread::try_join(ms)`. -/
def Thread.try_join (t : Thread) (ms : Timeout) (timely : Bool) :
    OpResult Thread Bool :=
  t.onImpl "Cannot join without a thread!" (fun i => i.try_join ms timely)

/-- `Thread::exit_code()`. -/
def Thread.exit_code (t : Thread) : OpResult Thread Int :=
  t.onImpl "Cannot get exit code without a thread!" Impl.exit_code

/-- `Thread::~Thread()`: if `pimpl` is non-null, `join()` inside
`try { } catch ( ... ) { ; }` — every thrown failure is swallowed.  The
state type is `Unit` because the object no longer exists afterwards. -/
def Thread.destruct (t : Thread) : OpResult Unit Unit :=
  match t.pimpl with
  | none => .ok () ()
  | some i =>
    match i.join with
    | .ok _ _ => .ok () ()
    | .err _ _ => .ok () ()
    | .hangs => .hangs

/-- `Thread::Thread(Thread&&)`: the destination steals `pimpl`, the moved
from source is left null.  Returns (destination, source). -/
def Thread.moveCtor (o : Thread) : Thread × Thread :=
  (⟨o.pimpl⟩, ⟨none⟩)

/-- `Thread::operator=(Thread&&)`: a destination that owns a thread first
joins it; a failure thrown by that join propagates before any transfer, so
both sides keep their ownership.  On success the destination steals the
source `pimpl` and the source is left null.  Returns
(destination, source). -/
def Thread.moveAssign (dst src : Thread) :
    OpResult (Thread × Thread) Unit :=
  match dst.pimpl with
  | none => .ok () (⟨src.pimpl⟩, ⟨none⟩)
  | some i =>
    match i.join with
    | .ok _ _ => .ok () (⟨src.pimpl⟩, ⟨none⟩)
    | .err e s => .err e (⟨some s⟩, src)
    | .hangs => .hangs

/-- The controller state reached by `create(R); start()` for a routine
with outcome `r`: worker has set `started`, suspend count is 0. -/
def implStartedOf (r : Except Exc Int) : Impl :=
  { context := { routine := r, started := true, completed := false
                 exc := none, exit_code := 0 }
    os := { suspendCount := 0, finished := false, osExit := 0 }
    _suspended := false
    _joined := false }

/-- The state reached by `create; start; join` for a routine whose
escaping exception is `e`: the worker captured `e`, stored `-1`, and the
controller joined. -/
def implJoinedErrOf (e : Exc) : Impl :=
  { context := { routine := .error e, started := true, completed := true
                 exc := some e, exit_code := -1 }
    os := { suspendCount := 0, finished := true, osExit := -1 }
    _suspended := false
    _joined := true }

/-- A freshly created (never started) thread for the routine returning
7. -/
def iFresh : Impl := Impl.create (.ok 7)

/-- Started, running thread for the routine returning 7. -/
def iStarted : Impl := implStartedOf (.ok 7)

/-- The controller owning `iStarted`. -/
def tStarted : Thread := ⟨some iStarted⟩

/-- `iStarted` after `suspend()`: OS suspend count 1, local bit set. -/
def iSusp : Impl :=
  { iStarted with os := { iStarted.os with suspendCount := 1 }
                  _suspended := true }

/-- The state after `try_join` on `iSusp` times out: the buggy resume
raised the OS suspend count from 1 to 2 and cleared the local bit. -/
def iAfterTimeout : Impl :=
  { iStarted with os := { iStarted.os with suspendCount := 2 } }

/-- `iStarted` after a successful `join()`: worker completed with 7,
controller joined. -/
def iJoined : Impl :=
  { context := { routine := .ok 7, started := true, completed := true
                 exc := none, exit_code := 7 }
    os := { suspendCount := 0, finished := true, osExit := 7 }
    _suspended := false
    _joined := true }

/-- The controller owning `iJoined`. -/
def tJoined : Thread := ⟨some iJoined⟩

-- Reachability of the concrete states above along real call sequences.

theorem iFresh_reached :
    Thread.create Thread.default (.ok 7) = .ok () ⟨some iFresh⟩ := rfl

theorem iStarted_reached : iFresh.start = .ok () iStarted := rfl

theorem iSusp_reached : iStarted.suspend = .ok () iSusp := rfl

theorem iJoined_reached : iStarted.join = .ok () iJoined := rfl

/-- Claim C1: for every routine that returns an integer `v`, the sequence
`create(R); start(); join(); exit_code()` succeeds and `exit_code()`
returns `v`. -/
theorem C1_create_start_join_exit_code (v : Int) :
    Thread.create Thread.default (.ok v) =
      .ok () ⟨some (Impl.create (.ok v))⟩ ∧
    Thread.start ⟨some (Impl.create (.ok v))⟩ =
      .ok () ⟨some (implStartedOf (.ok v))⟩ ∧
    Thread.join ⟨some (implStartedOf (.ok v))⟩ =
      .ok () ⟨some { context := { routine := .ok v, started := true
                                  completed := true, exc := none
                                  exit_code := v }
                     os := { suspendCount := 0, finished := true, osExit := v }
                     _suspended := false
                     _joined := true }⟩ ∧
    Thread.exit_code
        ⟨some { context := { routine := .ok v, started := true
                             completed := true, exc := none, exit_code := v }
                os := { suspendCount := 0, finished := true, osExit := v }
                _suspended := false
                _joined := true }⟩ =
      .ok v
        ⟨some { context := { routine := .ok v, started := true
                             completed := true, exc := none, exit_code := v }
                os := { suspendCount := 0, finished := true, osExit := v }
                _suspended := false
                _joined := true }⟩ :=
  ⟨rfl, rfl, rfl, rfl⟩

/-- Claim C2: a routine whose uncaught failure is `e` leads, after a
successful `join()`, to the first `exit_code()` re-raising exactly `e`
(the same captured payload, so kind and message are preserved) and never
returning an integer; and on any controller state that is not joined,
`exit_code()` raises UserError. -/
theorem C2_raise_captured_and_reraised (e : Exc) :
    (∀ i : Impl, i._joined = false →
      i.exit_code =
        .err (.userError
          "Cannot retrieve exit code until the thread has joined!") i) ∧
    Thread.create Thread.default (.error e) =
      .ok () ⟨some (Impl.create (.error e))⟩ ∧
    Thread.start ⟨some (Impl.create (.error e))⟩ =
      .ok () ⟨some (implStartedOf (.error e))⟩ ∧
    Thread.join ⟨some (implStartedOf (.error e))⟩ =
      .ok () ⟨some (implJoinedErrOf e)⟩ ∧
    Thread.exit_code ⟨some (implJoinedErrOf e)⟩ =
      .err e ⟨some (implJoinedErrOf e)⟩ ∧
    (∀ (v : Int) (s : Thread),
      Thread.exit_code ⟨some (implJoinedErrOf e)⟩ ≠ .ok v s) := by
  refine ⟨?_, rfl, rfl, rfl, rfl, ?_⟩
  · intro i h
    simp [Impl.exit_code, Impl.joined, h]
  · intro v s h
    exact OpResult.noConfusion h

/-- Claim C3 (refuting evaluation): on the suspended controller `iSusp`
(OS suspend count 1, local bit set), `resume()` clears the local bit but
issues the suspend capability operation: the OS suspend count rises from
1 to 2, whereas the resume operation would have lowered it to 0.  This
matches `threads.cpp:170`, where `resume()` calls `SuspendThread`. -/
theorem C3_resume_issues_suspend :
    iSusp.suspended = true ∧
    iSusp.os.suspendCount = 1 ∧
    Impl.resume iSusp =
      .ok () { iSusp with os := { iSusp.os with suspendCount := 2 }
                          _suspended := false } :=
  ⟨rfl, rfl, rfl⟩

/-- Claim C4 (refuting evaluation): `set_priority` on the non-running
thread `iFresh` maps five of the six levels to defined native values, but
the switch has no `REAL_TIME` case, so for `REAL_TIME` the `nPriority`
value handed to the OS is left undefined (`none`). -/
theorem C4_real_time_priority_undefined :
    iFresh.running = false ∧
    Impl.set_priority iFresh .REAL_TIME = .ok none iFresh ∧
    priorityCases .REAL_TIME = none ∧
    (priorityCases .LOWEST).isSome = true ∧
    (priorityCases .LOW).isSome = true ∧
    (priorityCases .NORMAL).isSome = true ∧
    (priorityCases .HIGH).isSome = true ∧
    (priorityCases .HIGHEST).isSome = true :=
  ⟨rfl, rfl, rfl, rfl, rfl, rfl, rfl, rfl⟩

/-- Claim C6 (refuting evaluation): `try_join` on the suspended controller
`iSusp` does go through the resume path first and, after the timeout,
does not restore the local suspended bit — but the OS thread is NOT
resumed: the buggy resume leaves the OS suspend count at 2, so at the OS
level the thread stays paused rather than running (which also forces the
timeout for every oracle value). -/
theorem C6_try_join_timeout_thread_not_resumed :
    iSusp.suspended = true ∧
    (∀ timely : Bool,
      Impl.try_join iSusp (.finite 10) timely = .ok false iAfterTimeout) ∧
    iAfterTimeout._suspended = false ∧
    iAfterTimeout.os.suspendCount = 2 :=
  ⟨rfl, fun _ => rfl, rfl, rfl⟩

/-- Claim C7 (refuting evaluation): on the suspended (hence started and
not joined) controller `iSusp`, a timed `try_join` does return false with
the joined bit still false — but the promised later `try_join(INFINITE)`
can never succeed: it hangs forever, because the buggy resume left the OS
suspend count at 2 and nothing ever lowers it. -/
theorem C7_timed_out_then_infinite_join_hangs :
    iSusp.started = true ∧
    iSusp.joined = false ∧
    (∀ timely : Bool,
      Impl.try_join iSusp (.finite 10) timely = .ok false iAfterTimeout) ∧
    iAfterTimeout._joined = false ∧
    (∀ timely : Bool,
      Impl.try_join iAfterTimeout .INFINITE timely = .hangs) :=
  ⟨rfl, rfl, fun _ => rfl, rfl, fun _ => rfl⟩

/-- An infinite `WaitForSingleObject` never reports a timeout: it is
signaled, or it can never be satisfied. -/
theorem wait_INFINITE_not_timeout (i : Impl) (timely : Bool) (s : Impl) :
    waitForSingleObject i .INFINITE timely ≠ (.timeout, s) := by
  unfold waitForSingleObject
  split
  · simp
  · split
    · simp
    · simp

/-- If the wait switch of an infinite `try_join` returns normally, the
resulting state carries `_joined = true`. -/
theorem joinWaitSwitch_INFINITE_joined (i1 : Impl) (timely b : Bool)
    (s : Impl) (h : joinWaitSwitch i1 .INFINITE timely = .ok b s) :
    s._joined = true := by
  unfold joinWaitSwitch at h
  rcases hw : waitForSingleObject i1 .INFINITE timely with ⟨res, i2⟩
  rw [hw] at h
  cases res with
  | object0 => cases h; rfl
  | timeout => exact absurd hw (wait_INFINITE_not_timeout i1 timely i2)
  | block => exact OpResult.noConfusion h

/-- If `try_join(INFINITE)` returns normally, the resulting state carries
`_joined = true`. -/
theorem try_join_INFINITE_joined (i : Impl) (timely b : Bool) (s : Impl)
    (h : i.try_join .INFINITE timely = .ok b s) : s._joined = true := by
  unfold Impl.try_join at h
  split at h
  · exact OpResult.noConfusion h
  · split at h
    · exact OpResult.noConfusion h
    · split at h
      · exact OpResult.noConfusion h
      · exact OpResult.noConfusion h
      · exact joinWaitSwitch_INFINITE_joined _ timely b s h

/-- If `join()` returns normally, the resulting state carries
`_joined = true`. -/
theorem join_ok_joined (i s : Impl) (h : i.join = .ok () s) :
    s._joined = true := by
  unfold Impl.join at h
  rcases hj : i.try_join .INFINITE true with ⟨b, s1⟩ | ⟨e1, s1⟩ | _ <;>
    rw [hj] at h
  · cases h
    exact try_join_INFINITE_joined i true b _ hj
  · exact OpResult.noConfusion h
  · exact OpResult.noConfusion h

/-- Claim C5: on a controller owning a started, not-completed thread,
`terminate(code)` forcibly finishes the OS thread recording `code` as its
exit code, resets the controller to Empty (`pimpl = nullptr`), and every
subsequent `join()`, `try_join()` or `exit_code()` fails at once with
UserError instead of blocking. -/
theorem C5_terminate_records_code_and_empties (t : Thread) (i : Impl)
    (code : Int) (h1 : t.pimpl = some i) (h2 : i.started = true)
    (h3 : i.completed = false) :
    i.terminate code =
      .ok () { i with os := { i.os with finished := true, osExit := code } } ∧
    t.terminate code = .ok () ⟨none⟩ ∧
    Thread.join ⟨none⟩ =
      .err (.userError "Cannot join without a thread!") ⟨none⟩ ∧
    (∀ (ms : Timeout) (timely : Bool),
      Thread.try_join ⟨none⟩ ms timely =
        .err (.userError "Cannot join without a thread!") ⟨none⟩) ∧
    Thread.exit_code ⟨none⟩ =
      .err (.userError "Cannot get exit code without a thread!") ⟨none⟩ := by
  have hterm : i.terminate code =
      .ok () { i with os := { i.os with finished := true, osExit := code } } := by
    simp [Impl.terminate, h2, h3]
  refine ⟨hterm, ?_, rfl, fun _ _ => rfl, rfl⟩
  simp [Thread.terminate, h1, hterm]

/-- Witness for C5 on a concrete started, not-completed controller. -/
theorem C5_witness :
    tStarted.pimpl = some iStarted ∧ iStarted.started = true ∧
    iStarted.completed = false ∧
    Thread.terminate tStarted 5 = .ok () ⟨none⟩ :=
  ⟨rfl, rfl, rfl,
    (C5_terminate_records_code_and_empties tStarted iStarted 5 rfl rfl
      rfl).2.1⟩

/-- Claim C8: the destructor of a non-empty, non-detached controller
auto-joins (whenever the join path returns normally, the thread really is
joined) and never lets a failure escape: no run of the destructor ends in
a raised failure, whether the inner join returned normally or threw. -/
theorem C8_destructor_never_raises (t : Thread) (i : Impl)
    (h : t.pimpl = some i) :
    (∀ (e : Exc) (u : Unit), t.destruct ≠ OpResult.err e u) ∧
    (∀ (e : Exc) (s : Impl), i.join = .err e s → t.destruct = .ok () ()) ∧
    (∀ s : Impl, i.join = .ok () s →
      t.destruct = .ok () () ∧ s._joined = true) := by
  have hd : t.destruct =
      (match i.join with
       | .ok _ _ => OpResult.ok () ()
       | .err _ _ => OpResult.ok () ()
       | .hangs => OpResult.hangs) := by
    simp [Thread.destruct, h]
  refine ⟨?_, ?_, ?_⟩
  · intro e u hcon
    rw [hd] at hcon
    rcases hj : i.join with ⟨a, s1⟩ | ⟨e1, s1⟩ | _ <;> rw [hj] at hcon <;>
      exact OpResult.noConfusion hcon
  · intro e s hj
    rw [hd, hj]
  · intro s hj
    exact ⟨by rw [hd, hj], join_ok_joined i s hj⟩

/-- Witness for C8 on a concrete non-empty controller (its join throws
UserError because the thread is already joined, and the destructor
swallows it). -/
theorem C8_witness :
    tJoined.pimpl = some iJoined ∧
    (∀ (e : Exc) (u : Unit), tJoined.destruct ≠ OpResult.err e u) :=
  ⟨rfl, (C8_destructor_never_raises tJoined iJoined rfl).1⟩

/-- Claim C9: a controller in the Empty state (`pimpl = nullptr`, as
produced by default construction, being moved from, `detach()`, or a
successful `terminate()`) answers each of the four status queries
`started`, `running`, `suspended`, `completed` with a raised UserError
instead of a boolean. -/
theorem C9_empty_status_queries_raise_user_error (t : Thread)
    (h : t.pimpl = none) :
    Thread.default.pimpl = none ∧
    (∀ o : Thread, (Thread.moveCtor o).2.pimpl = none) ∧
    (∀ o : Thread, o.detach = .ok () ⟨none⟩) ∧
    t.started = .err (.userError "No thread!") t ∧
    t.running = .err (.userError "No thread!") t ∧
    t.suspended = .err (.userError "No thread!") t ∧
    t.completed = .err (.userError "No thread!") t := by
  refine ⟨rfl, fun _ => rfl, fun _ => rfl, ?_, ?_, ?_, ?_⟩ <;>
    simp [Thread.started, Thread.running, Thread.suspended, Thread.completed,
          Thread.onImpl, h]

/-- Witness for C9 on the default-constructed controller. -/
theorem C9_witness :
    Thread.default.pimpl = none ∧
    Thread.started Thread.default =
      .err (.userError "No thread!") Thread.default :=
  ⟨rfl,
    (C9_empty_status_queries_raise_user_error Thread.default rfl).2.2.2.1⟩

/-- Claim C10: move assignment onto a destination that owns an already
joined thread raises UserError (from the join-once guard) and transfers
nothing: destination and source keep exactly their previous states. -/
theorem C10_move_assign_onto_joined_raises (dst src : Thread) (i : Impl)
    (h1 : dst.pimpl = some i) (h2 : i._joined = true) :
    Thread.moveAssign dst src =
      .err (.userError "Cannot join more than once!") (dst, src) := by
  have hj : i.join = .err (.userError "Cannot join more than once!") i := by
    simp [Impl.join, Impl.try_join, Impl.joined, h2]
  obtain ⟨p⟩ := dst
  have hp : p = some i := h1
  subst hp
  simp [Thread.moveAssign, hj]

/-- Witness for C10 on a concrete joined destination. -/
theorem C10_witness :
    tJoined.pimpl = some iJoined ∧ iJoined._joined = true ∧
    Thread.moveAssign tJoined Thread.default =
      .err (.userError "Cannot join more than once!")
        (tJoined, Thread.default) :=
  ⟨rfl, rfl,
    C10_move_assign_onto_joined_raises tJoined Thread.default iJoined rfl
      rfl⟩

/-- Witness for C2 at a concrete not-yet-joined controller state. -/
theorem C2_witness :
    iStarted._joined = false ∧
    iStarted.exit_code =
      .err (.userError
        "Cannot retrieve exit code until the thread has joined!") iStarted :=
  ⟨rfl, (C2_raise_captured_and_reraised (.other "boom")).1 iStarted rfl⟩

end Simply
